import Mathlib

/-!
Shallow embedding of the Deadline & Notification Core of the course-management
backend: the `ActivityTracker` entity's deadline/overdue/progress logic, the
submit HTTP route handler, and the notification service (email queue
processor, manager-alert fan-out, and the Redis-backed notification log).

Time is modelled as an integer day index; `jsGetDay` mirrors JavaScript
`Date.getDay` (day-of-week 0..6, with the Unix epoch day being a Thursday,
i.e. `getDay = 4`).  The source's `setDate` arithmetic preserves the
time-of-day of `new Date()`, so day-granular comparisons are exact.
-/

namespace CourseMgmt

/-- Task status enum used by the six grading/moderation/sync fields:
`Done`, `Pending`, `Not Started`. -/
inductive TaskStatus where
  | done
  | pending
  | notStarted
deriving DecidableEq, Repr

/-- One row of the `activity_trackers` table (the fields the core logic
reads).  `submittedAt` and `createdAt` are day indices; `submittedAt` is
nullable. -/
structure ActivityRecord where
  allocationId : Nat
  facilitatorId : Nat
  weekNumber : Int
  attendance : Option (List Bool)
  formativeOneGrading : TaskStatus
  formativeTwoGrading : TaskStatus
  summativeGrading : TaskStatus
  courseModeration : TaskStatus
  intranetSync : TaskStatus
  gradeBookStatus : TaskStatus
  notes : String
  submittedAt : Option Int
  createdAt : Int
deriving DecidableEq, Repr

/-- JavaScript `Date.getDay()` for a day index: day-of-week in 0..6
(0 = Sunday).  The Unix epoch (day 0) was a Thursday. -/
def jsGetDay (d : Int) : Int :=
  (d + 4) % 7

/-- `ActivityTracker.prototype.getDeadline`:
`weekStart = now - now.getDay() + (weekNumber - 1) * 7`, then
`deadline = weekStart + 9` (end of week + 2 days grace). -/
def getDeadline (now : Int) (weekNumber : Int) : Int :=
  let weekStart := now - jsGetDay now + (weekNumber - 1) * 7
  weekStart + 9

/-- `ActivityTracker.prototype.isOverdue`: `false` when `submittedAt` is
non-null; otherwise recomputes the same week-start/deadline arithmetic as
`getDeadline` and returns `now > deadline`. -/
def isOverdue (now : Int) (r : ActivityRecord) : Bool :=
  match r.submittedAt with
  | some _ => false
  | none =>
    let weekStart := now - jsGetDay now + (r.weekNumber - 1) * 7
    let deadline := weekStart + 9
    decide (deadline < now)

/-- `ActivityTracker.findOverdue`: `twoWeeksAgo = now - 16` days; selects
rows with `submittedAt` null and `createdAt < twoWeeksAgo`. -/
def findOverdue (now : Int) (records : List ActivityRecord) : List ActivityRecord :=
  let twoWeeksAgo := now - 16
  records.filter (fun r => r.submittedAt.isNone && decide (r.createdAt < twoWeeksAgo))

/-- The six fixed task fields, in the order the source lists them. -/
def taskFields (r : ActivityRecord) : List TaskStatus :=
  [r.formativeOneGrading, r.formativeTwoGrading, r.summativeGrading,
   r.courseModeration, r.intranetSync, r.gradeBookStatus]

/-- Return shape of `getOverallProgress`. -/
structure Progress where
  completed : Nat
  pending : Nat
  notStarted : Nat
  total : Nat
  completionPercentage : Rat
deriving DecidableEq, Repr

/-- `ActivityTracker.prototype.getOverallProgress`: counts of
Done/Pending/Not Started over the six task fields, the total, and
`(completed / tasks.length) * 100`. -/
def getOverallProgress (r : ActivityRecord) : Progress :=
  let tasks := taskFields r
  let completed := (tasks.filter (fun t => t == TaskStatus.done)).length
  let pending := (tasks.filter (fun t => t == TaskStatus.pending)).length
  let notStarted := (tasks.filter (fun t => t == TaskStatus.notStarted)).length
  { completed := completed
    pending := pending
    notStarted := notStarted
    total := tasks.length
    completionPercentage := ((completed : Rat) / (tasks.length : Rat)) * 100 }

/-- `ActivityTracker.prototype.getAttendanceRate`: 0 when the attendance
array is absent or empty, else `presentDays / attendance.length * 100`. -/
def getAttendanceRate (r : ActivityRecord) : Rat :=
  match r.attendance with
  | none => 0
  | some att =>
    if att.length = 0 then 0
    else ((att.filter (fun day => day == true)).length : Rat) / (att.length : Rat) * 100

/-- `ActivityTracker.prototype.submit`: unconditionally sets
`submittedAt = new Date()` and saves. -/
def submit (now : Int) (r : ActivityRecord) : ActivityRecord :=
  { r with submittedAt := some now }

/-- Outcome of the `PATCH /:id/submit` route handler for a found, authorized
record: either the HTTP 400 duplicate-submission rejection, or success
carrying the updated record and whether a late-submission manager alert was
enqueued. -/
inductive SubmitResponse where
  | alreadySubmitted
  | success (updated : ActivityRecord) (lateAlertQueued : Bool)
deriving DecidableEq, Repr

/-- The `PATCH /:id/submit` handler body after the not-found and permission
checks: rejects with HTTP 400 when `activity.submittedAt` is non-null,
otherwise calls `activity.submit()` and then queues a late-submission
manager alert iff `activity.isOverdue()` holds on the mutated record. -/
def submitHandler (now : Int) (activity : ActivityRecord) : SubmitResponse :=
  if activity.submittedAt.isSome then SubmitResponse.alreadySubmitted
  else
    let submitted := submit now activity
    SubmitResponse.success submitted (isOverdue now submitted)

/-- Whether a submit response carried a late-submission manager alert. -/
def lateAlertOf : SubmitResponse → Bool
  | SubmitResponse.success _ b => b
  | SubmitResponse.alreadySubmitted => false

/-- The slice of the `users` table the notification service reads. -/
structure UserAccount where
  email : String
  isActive : Bool
deriving DecidableEq, Repr

/-- A row of the `managers` table with its included `user`. -/
structure Manager where
  user : UserAccount
deriving DecidableEq, Repr

/-- Payload of a `send-email` job (`{to, subject, text, type}`; `html`
defaults to `text` and is not separately modelled). -/
structure EmailPayload where
  toAddr : String
  subject : String
  text : String
  type : String
deriving DecidableEq, Repr

/-- Bull job options the service sets (`backoff` only on email jobs). -/
structure JobOptions where
  delay : Nat
  attempts : Nat
  backoff : Option (String × Nat)
  removeOnComplete : Nat
  removeOnFail : Nat
deriving DecidableEq, Repr

/-- The `data` object carried by a `manager-alert` job: the union of the
fields the three alert-text generators read. -/
structure AlertData where
  count : Nat
  facilitators : Nat
  details : String
  facilitatorName : String
  courseName : String
  weekNumber : Int
  submissionTime : Int
  deadline : String
deriving DecidableEq, Repr

/-- Payload of a `manager-alert` job: `{type, data}`. -/
structure AlertJob where
  type : String
  data : AlertData
deriving DecidableEq, Repr

/-- `generateOverdueAlert`: alert text built from `data.count` and
`data.facilitators`. -/
def generateOverdueAlert (data : AlertData) : String :=
  "Alert: Overdue Activity Log Submissions\n\nThere are " ++ toString data.count
    ++ " overdue activity log submissions from " ++ toString data.facilitators
    ++ " facilitator(s).\n\nPlease follow up with the respective facilitators."

/-- `generateLateSubmissionAlert`: alert text built from the facilitator,
course, week and submission-time fields. -/
def generateLateSubmissionAlert (data : AlertData) : String :=
  "Alert: Late Activity Log Submission\n\nFacilitator: " ++ data.facilitatorName
    ++ "\nCourse: " ++ data.courseName
    ++ "\nWeek: " ++ toString data.weekNumber
    ++ "\nSubmitted: " ++ toString data.submissionTime

/-- `generateCriticalDeadlineAlert`: alert text built from `data.count` and
`data.deadline`. -/
def generateCriticalDeadlineAlert (data : AlertData) : String :=
  "Alert: Critical Deadline Approaching\n\n" ++ toString data.count
    ++ " activity log submissions are due within " ++ data.deadline ++ "."

/-- One iteration of the alert processor's `for (const manager of managers)`
loop: the `switch (type)` picks the subject and body, and the `default`
branch `continue`s without queueing an email for that manager. -/
def alertEmailFor (type : String) (data : AlertData) (m : Manager) : Option EmailPayload :=
  if type = "overdue-submission" then
    some { toAddr := m.user.email
           subject := "Overdue Activity Log Submission Alert"
           text := generateOverdueAlert data
           type := "alert" }
  else if type = "late-submission" then
    some { toAddr := m.user.email
           subject := "Late Activity Log Submission Alert"
           text := generateLateSubmissionAlert data
           type := "alert" }
  else if type = "critical-deadline" then
    some { toAddr := m.user.email
           subject := "Critical Deadline Alert"
           text := generateCriticalDeadlineAlert data
           type := "alert" }
  else none

/-- The `manager-alert` processor (`setupAlertProcessor`): loads all
managers whose included user is active (the `where` on `$user.isActive$`)
from the store as it is at processing time, and queues one email per
manager via the switch.  The trailing `logNotification` of a single
`queued` alert entry is orthogonal to the emails and not modelled. -/
def processManagerAlert (managers : List Manager) (job : AlertJob) : List EmailPayload :=
  (managers.filter (fun m => m.user.isActive)).filterMap (alertEmailFor job.type job.data)

/-- JavaScript `x || fallback` for an optional number: `undefined` and `0`
are both falsy. -/
def jsOr (x : Option Nat) (fallback : Nat) : Nat :=
  match x with
  | none => fallback
  | some v => if v = 0 then fallback else v

/-- A queued `send-email` job. -/
structure EmailJob where
  data : EmailPayload
deriving DecidableEq, Repr

/-- `queueEmail(emailData, options)`: enqueues a `send-email` job with
`delay = options.delay || 0`, `attempts = options.attempts || 3`,
exponential backoff with base delay 2000ms. -/
def queueEmail (emailData : EmailPayload) (attemptsOption : Option Nat)
    (delayOption : Option Nat) : EmailJob × JobOptions :=
  ({ data := emailData },
   { delay := jsOr delayOption 0
     attempts := jsOr attemptsOption 3
     backoff := some ("exponential", 2000)
     removeOnComplete := 10
     removeOnFail := 5 })

/-- `queueManagerAlert(type, data, delay)`: enqueues a `manager-alert` job
carrying only `{type, data}` (no manager information), with 2 attempts. -/
def queueManagerAlert (type : String) (data : AlertData) (delay : Nat) :
    AlertJob × JobOptions :=
  ({ type := type, data := data },
   { delay := delay
     attempts := 2
     backoff := none
     removeOnComplete := 5
     removeOnFail := 3 })

/-- Entry of the notification log (`logNotification` payload; the appended
ISO timestamp and the Redis 7-day TTL key are not modelled). -/
structure NotifLogEntry where
  type : String
  recipient : String
  subject : String
  status : String
  messageId : Option String
  errorMessage : Option String
  emailType : String
deriving DecidableEq, Repr

/-- Result of one call to the email transport. -/
inductive SendOutcome where
  | sent (messageId : String)
  | failure (errorMessage : String)
deriving DecidableEq, Repr

/-- Whether a transport outcome was a failure. -/
def SendOutcome.isFailure : SendOutcome → Bool
  | SendOutcome.failure _ => true
  | SendOutcome.sent _ => false

/-- One run of the `send-email` processor body (`setupEmailProcessor`):
on transport success it logs a `sent` entry with the provider message id
and returns normally; on transport failure it logs a `failed` entry with
the error message and rethrows (second component `false`). -/
def sendEmailAttempt (d : EmailPayload) (outcome : SendOutcome) : NotifLogEntry × Bool :=
  match outcome with
  | SendOutcome.sent mid =>
    ({ type := "email", recipient := d.toAddr, subject := d.subject, status := "sent",
       messageId := some mid, errorMessage := none, emailType := d.type }, true)
  | SendOutcome.failure msg =>
    ({ type := "email", recipient := d.toAddr, subject := d.subject, status := "failed",
       messageId := none, errorMessage := some msg, emailType := d.type }, false)

/-- Terminal state of a queue job. -/
inductive JobState where
  | completed
  | failed
deriving DecidableEq, Repr

/-- Modelled from the spec: the queue library's (Bull's) retry machinery —
missing from `src/`, which only configures it via job options.  Per the
spec, "each queue job independently retries up to its configured `attempts`
with exponential backoff; after exhaustion the job is marked failed".
`n` is the number of attempts still allowed, `made` the attempts already
made, `log` the notification log written so far (oldest first); each
attempt runs the `send-email` processor body (`sendEmailAttempt`), and a
rethrow consumes one attempt. -/
def runJobAux (d : EmailPayload) (outcomes : Nat → SendOutcome) :
    Nat → Nat → List NotifLogEntry → JobState × Nat × List NotifLogEntry
  | 0, made, log => (JobState.failed, made, log)
  | n + 1, made, log =>
    let attempt := sendEmailAttempt d (outcomes made)
    if attempt.2 then (JobState.completed, made + 1, log ++ [attempt.1])
    else runJobAux d outcomes n (made + 1) (log ++ [attempt.1])

/-- Run a `send-email` job to its terminal state: the job's configured
`attempts`, with `outcomes i` the transport's result on attempt `i`.
Returns the terminal state, the number of attempts made, and the
notification log entries written (oldest first). -/
def runEmailJob (d : EmailPayload) (attempts : Nat) (outcomes : Nat → SendOutcome) :
    JobState × Nat × List NotifLogEntry :=
  runJobAux d outcomes attempts 0 []

/-- `logNotification`: `lPush` the entry onto `recent_notifications`, then
`lTrim 0 99` (keep the 100 most recent).  The store is most-recent-first. -/
def logNotification (entry : NotifLogEntry) (recent : List NotifLogEntry) :
    List NotifLogEntry :=
  (entry :: recent).take 100

/-- `getRecentNotifications(limit)`: `lRange 0 (limit - 1)`.  With
`limit = 0` the Redis stop index is `-1`, which returns the whole list. -/
def getRecentNotifications (limit : Nat) (recent : List NotifLogEntry) :
    List NotifLogEntry :=
  if limit = 0 then recent else recent.take limit

/-- The deadline exactly as the spec sentence words it: the start of the
current calendar week shifted BACK by `(weekNumber - 1)` weeks, plus 9
days.  Written from the spec's words, to be compared with `getDeadline`. -/
def specDeadlineShiftedBack (now : Int) (weekNumber : Int) : Int :=
  (now - jsGetDay now) - (weekNumber - 1) * 7 + 9

/-- The deadline with the shift direction amended: the start of the current
calendar week shifted FORWARD by `(weekNumber - 1)` weeks, plus 9 days. -/
def specDeadlineShiftedForward (now : Int) (weekNumber : Int) : Int :=
  (now - jsGetDay now) + (weekNumber - 1) * 7 + 9

/-- A concrete unsubmitted activity record (week 1, blank tasks). -/
def blankRecord : ActivityRecord :=
  { allocationId := 42
    facilitatorId := 7
    weekNumber := 1
    attendance := some [false, false, false, false, false]
    formativeOneGrading := TaskStatus.notStarted
    formativeTwoGrading := TaskStatus.notStarted
    summativeGrading := TaskStatus.notStarted
    courseModeration := TaskStatus.notStarted
    intranetSync := TaskStatus.notStarted
    gradeBookStatus := TaskStatus.notStarted
    notes := ""
    submittedAt := none
    createdAt := 20000 }

/-- A concrete record that was already submitted on day 20003. -/
def submittedRecord : ActivityRecord :=
  { blankRecord with submittedAt := some 20003 }

/-- A concrete record with no attendance array. -/
def noAttendanceRecord : ActivityRecord :=
  { blankRecord with attendance := none }

/-- A concrete record with attendance `[true, false, true, true, false]`. -/
def attendanceRecord : ActivityRecord :=
  { blankRecord with attendance := some [true, false, true, true, false] }

/-- A concrete `send-email` payload. -/
def sampleEmail : EmailPayload :=
  { toAddr := "facilitator@example.com"
    subject := "Activity Log Submission Reminder"
    text := "Please submit your weekly activity report."
    type := "reminder" }

/-- A transport that fails on every attempt. -/
def failAlways : Nat → SendOutcome :=
  fun _ => SendOutcome.failure "connect ECONNREFUSED"

/-- A concrete alert `data` object. -/
def sampleAlertData : AlertData :=
  { count := 5
    facilitators := 2
    details := "{}"
    facilitatorName := "Jane Doe"
    courseName := "CS101 - Intro"
    weekNumber := 3
    submissionTime := 20010
    deadline := "3 days" }

/-- A concrete manager store: three active managers and one inactive. -/
def sampleManagers : List Manager :=
  [ { user := { email := "m1@example.com", isActive := true } }
  , { user := { email := "m2@example.com", isActive := false } }
  , { user := { email := "m3@example.com", isActive := true } }
  , { user := { email := "m4@example.com", isActive := true } } ]

/-- A concrete notification log entry. -/
def sampleLogEntry : NotifLogEntry :=
  { type := "email"
    recipient := "m1@example.com"
    subject := "Overdue Activity Log Submission Alert"
    status := "sent"
    messageId := some "msg-1"
    errorMessage := none
    emailType := "alert" }

/-- A second concrete notification log entry. -/
def sampleLogEntry2 : NotifLogEntry :=
  { sampleLogEntry with recipient := "m3@example.com", messageId := some "msg-2" }

/-- C2 counterexample: at `now = 0` (a Thursday) and week 2, `getDeadline`
does not equal the spec's "start of current week shifted back by
`(weekNumber - 1)` weeks plus 9 days" — the code shifts forward. -/
theorem c2_counterexample : getDeadline 0 2 ≠ specDeadlineShiftedBack 0 2 := by
  decide

/-- C2 (amended): for every week number `w`, `getDeadline` returns the start
of the current calendar week shifted FORWARD by `(w - 1)` weeks, plus 9 days
(7-day nominal week plus 2 days grace). -/
theorem c2_deadline_shifted_forward (now weekNumber : Int) :
    getDeadline now weekNumber = specDeadlineShiftedForward now weekNumber := by
  unfold getDeadline specDeadlineShiftedForward
  ring

/-- C4: `isOverdue` returns `false` whenever the submission timestamp is
non-null, regardless of the deadline; on a record with null submission
timestamp it returns `true` iff the current time is strictly after
`getDeadline weekNumber`. -/
theorem c4_isOverdue_iff (now : Int) (r : ActivityRecord) :
    (r.submittedAt ≠ none → isOverdue now r = false)
    ∧ (r.submittedAt = none →
        (isOverdue now r = true ↔ getDeadline now r.weekNumber < now)) := by
  constructor
  · intro h
    unfold isOverdue
    cases hs : r.submittedAt with
    | none => exact absurd hs h
    | some t => rfl
  · intro h
    unfold isOverdue getDeadline
    rw [h]
    simp

/-- C4 witness: concrete instances of both branches. -/
theorem c4_witness :
    isOverdue 20010 submittedRecord = false
    ∧ (isOverdue 20010 blankRecord = true
        ↔ getDeadline 20010 blankRecord.weekNumber < 20010) :=
  ⟨(c4_isOverdue_iff 20010 submittedRecord).1 (by decide),
   (c4_isOverdue_iff 20010 blankRecord).2 rfl⟩

/-- C5: the submit route rejects a record whose submission timestamp is
already non-null (HTTP 400) before `submit()` runs, leaving the record
unchanged; and `submit()` itself unconditionally overwrites the timestamp
when called (it is not idempotent). -/
theorem c5_duplicate_submission_rejected (now : Int) (r : ActivityRecord) :
    (r.submittedAt ≠ none → submitHandler now r = SubmitResponse.alreadySubmitted)
    ∧ (submit now r).submittedAt = some now := by
  constructor
  · intro h
    unfold submitHandler
    rw [if_pos (Option.isSome_iff_ne_none.mpr h)]
  · rfl

/-- C5 witness: a record submitted on day 20003 is rejected at day 20010,
while a direct `submit` call would overwrite the old timestamp. -/
theorem c5_witness :
    submitHandler 20010 submittedRecord = SubmitResponse.alreadySubmitted
    ∧ (submit 20010 submittedRecord).submittedAt = some 20010 :=
  ⟨(c5_duplicate_submission_rejected 20010 submittedRecord).1 (by decide),
   (c5_duplicate_submission_rejected 20010 submittedRecord).2⟩

/-- C10: the late-submission branch of the submit handler is unreachable —
after `submit()` sets a non-null `submittedAt`, `isOverdue()` is always
`false`, so the submit path never enqueues a late-submission manager
alert. -/
theorem c10_late_alert_unreachable (now : Int) (r : ActivityRecord) :
    lateAlertOf (submitHandler now r) = false := by
  unfold submitHandler
  by_cases h : r.submittedAt.isSome
  · rw [if_pos h]
    rfl
  · rw [if_neg h]
    rfl

/-- The three task statuses partition any list of statuses. -/
theorem taskStatus_count_partition (ts : List TaskStatus) :
    (ts.filter (fun t => t == TaskStatus.done)).length
      + (ts.filter (fun t => t == TaskStatus.pending)).length
      + (ts.filter (fun t => t == TaskStatus.notStarted)).length = ts.length := by
  induction ts with
  | nil => rfl
  | cons h t ih => cases h <;> simp [List.filter_cons] <;> omega

/-- C8: `getOverallProgress` returns the counts of task fields equal to
Done/Pending/Not Started over the six fixed task fields, `total = 6`, the
three counts sum to 6, `completionPercentage = completed / 6 * 100`, and on
a record with all six fields Not Started it returns
`completed = 0, pending = 0, notStarted = 6, completionPercentage = 0`. -/
theorem c8_overall_progress (r : ActivityRecord) :
    (getOverallProgress r).completed
        = ((taskFields r).filter (fun t => t == TaskStatus.done)).length
    ∧ (getOverallProgress r).pending
        = ((taskFields r).filter (fun t => t == TaskStatus.pending)).length
    ∧ (getOverallProgress r).notStarted
        = ((taskFields r).filter (fun t => t == TaskStatus.notStarted)).length
    ∧ (getOverallProgress r).total = 6
    ∧ (getOverallProgress r).completed + (getOverallProgress r).pending
        + (getOverallProgress r).notStarted = 6
    ∧ (getOverallProgress r).completionPercentage
        = ((getOverallProgress r).completed : Rat) / 6 * 100
    ∧ (getOverallProgress blankRecord).completed = 0
    ∧ (getOverallProgress blankRecord).pending = 0
    ∧ (getOverallProgress blankRecord).notStarted = 6
    ∧ (getOverallProgress blankRecord).completionPercentage = 0 := by
  refine ⟨rfl, rfl, rfl, rfl, ?_, ?_, rfl, rfl, rfl, ?_⟩
  · have h := taskStatus_count_partition (taskFields r)
    simpa using h
  · have hc : (getOverallProgress r).completed
        = ((taskFields r).filter (fun t => t == TaskStatus.done)).length := rfl
    rw [hc]
    show ((((taskFields r).filter (fun t => t == TaskStatus.done)).length : Rat)
        / ((taskFields r).length : Rat)) * 100 = _
    norm_num [taskFields]
  · show (((taskFields blankRecord).filter (fun t => t == TaskStatus.done)).length : Rat)
        / ((taskFields blankRecord).length : Rat) * 100 = 0
    norm_num [taskFields, blankRecord]
    decide

/-- C9: `getAttendanceRate` returns `trueCount / length * 100` on a
non-empty attendance array, and 0 (total, no exception) when the array is
absent or empty. -/
theorem c9_attendance_rate (r : ActivityRecord) :
    (r.attendance = none → getAttendanceRate r = 0)
    ∧ (∀ a, r.attendance = some a → a = [] → getAttendanceRate r = 0)
    ∧ (∀ a, r.attendance = some a → a ≠ [] →
        getAttendanceRate r
          = ((a.filter (fun day => day == true)).length : Rat) / (a.length : Rat) * 100) := by
  refine ⟨?_, ?_, ?_⟩
  · intro h
    unfold getAttendanceRate
    rw [h]
  · intro a h ha
    subst ha
    unfold getAttendanceRate
    rw [h]
    rfl
  · intro a h ha
    unfold getAttendanceRate
    rw [h]
    have hlen : ¬ a.length = 0 := by simpa [List.length_eq_zero] using ha
    simp [hlen]

/-- C9 witness: absent attendance gives 0; a concrete 5-day array gives the
present-day ratio. -/
theorem c9_witness :
    getAttendanceRate noAttendanceRecord = 0
    ∧ getAttendanceRate attendanceRecord
        = ((([true, false, true, true, false] : List Bool).filter
              (fun day => day == true)).length : Rat)
            / (([true, false, true, true, false] : List Bool).length : Rat) * 100 :=
  ⟨(c9_attendance_rate noAttendanceRecord).1 rfl,
   (c9_attendance_rate attendanceRecord).2.2 [true, false, true, true, false] rfl (by decide)⟩

/-- Filtering after mapping equals mapping after filtering when the
predicate is invariant under the map. -/
theorem filter_map_pred_invariant {α β : Type} (f : α → β) (p : β → Bool) (q : α → Bool)
    (h : ∀ a, p (f a) = q a) (l : List α) :
    (l.map f).filter p = (l.filter q).map f := by
  induction l with
  | nil => rfl
  | cons a l ih =>
    simp only [List.map_cons, List.filter_cons, h a]
    cases hq : q a <;> simp [ih]

/-- C3: `findOverdue` returns exactly the records whose submission timestamp
is null and whose creation time is more than 16 days before the current
time; it never consults the per-record deadline — replacing every record's
week number leaves the selection unchanged. -/
theorem c3_findOverdue_characterization (now : Int) (records : List ActivityRecord) :
    (∀ r, r ∈ findOverdue now records ↔
        r ∈ records ∧ r.submittedAt = none ∧ r.createdAt < now - 16)
    ∧ (∀ w, findOverdue now (records.map (fun r => { r with weekNumber := w }))
          = (findOverdue now records).map (fun r => { r with weekNumber := w })) := by
  constructor
  · intro r
    unfold findOverdue
    simp [List.mem_filter, Option.isNone_iff_eq_none, and_assoc]
  · intro w
    unfold findOverdue
    exact filter_map_pred_invariant _ _ _ (fun a => rfl) records

/-- `filterMap` by a function that always returns `some` is a `map`. -/
theorem filterMap_eq_map_of_forall_some {α β : Type} (f : α → Option β) (g : α → β)
    (h : ∀ a, f a = some (g a)) (l : List α) :
    l.filterMap f = l.map g := by
  induction l with
  | nil => rfl
  | cons a l ih => simp [List.filterMap_cons, h a, ih]

/-- C6: processing a manager-alert job of a recognized type queues exactly
one `send-email` job per active manager in the store at processing time —
the addressed recipients are exactly the active managers' emails (the job
payload built by `queueManagerAlert` carries no manager information, so
only the processing-time store matters). -/
theorem c6_alert_fanout (managers : List Manager) (type : String) (data : AlertData)
    (delay : Nat)
    (h : type = "overdue-submission" ∨ type = "late-submission"
        ∨ type = "critical-deadline") :
    (processManagerAlert managers (queueManagerAlert type data delay).1).map
        (fun e => e.toAddr)
      = (managers.filter (fun m => m.user.isActive)).map (fun m => m.user.email) := by
  unfold processManagerAlert queueManagerAlert
  rcases h with h | h | h <;> subst h
  · rw [filterMap_eq_map_of_forall_some _
      (fun m => { toAddr := m.user.email
                  subject := "Overdue Activity Log Submission Alert"
                  text := generateOverdueAlert data
                  type := "alert" })
      (fun m => by simp [alertEmailFor])]
    rw [List.map_map]
    rfl
  · rw [filterMap_eq_map_of_forall_some _
      (fun m => { toAddr := m.user.email
                  subject := "Late Activity Log Submission Alert"
                  text := generateLateSubmissionAlert data
                  type := "alert" })
      (fun m => by simp [alertEmailFor])]
    rw [List.map_map]
    rfl
  · rw [filterMap_eq_map_of_forall_some _
      (fun m => { toAddr := m.user.email
                  subject := "Critical Deadline Alert"
                  text := generateCriticalDeadlineAlert data
                  type := "alert" })
      (fun m => by simp [alertEmailFor])]
    rw [List.map_map]
    rfl

/-- C6 witness: the concrete store with three active managers (of four)
yields exactly the three active managers' addresses. -/
theorem c6_witness :
    ("overdue-submission" = "overdue-submission"
        ∨ "overdue-submission" = "late-submission"
        ∨ "overdue-submission" = "critical-deadline")
    ∧ (processManagerAlert sampleManagers
          (queueManagerAlert "overdue-submission" sampleAlertData 0).1).map
          (fun e => e.toAddr)
        = (sampleManagers.filter (fun m => m.user.isActive)).map
            (fun m => m.user.email) :=
  ⟨Or.inl rfl,
   c6_alert_fanout sampleManagers "overdue-submission" sampleAlertData 0 (Or.inl rfl)⟩

/-- Invariants of the spec-modelled retry loop when every transport attempt
fails: the job ends failed, consumes all remaining attempts, and appends
exactly one `failed` log entry per attempt (and no `sent` entries). -/
theorem runJobAux_all_failures (d : EmailPayload) (outcomes : Nat → SendOutcome)
    (hfail : ∀ i, (outcomes i).isFailure = true) :
    ∀ (n made : Nat) (log : List NotifLogEntry),
      (runJobAux d outcomes n made log).1 = JobState.failed
      ∧ (runJobAux d outcomes n made log).2.1 = made + n
      ∧ ((runJobAux d outcomes n made log).2.2.filter
            (fun e => e.status == "failed")).length
          = (log.filter (fun e => e.status == "failed")).length + n
      ∧ ((runJobAux d outcomes n made log).2.2.filter
            (fun e => e.status == "sent")).length
          = (log.filter (fun e => e.status == "sent")).length := by
  intro n
  induction n with
  | zero => intro made log; exact ⟨rfl, rfl, rfl, rfl⟩
  | succ n ih =>
    intro made log
    cases ho : outcomes made with
    | sent mid =>
      have hm := hfail made
      rw [ho] at hm
      simp [SendOutcome.isFailure] at hm
    | failure msg =>
      have hstep : runJobAux d outcomes (n + 1) made log
          = runJobAux d outcomes n (made + 1)
              (log ++ [{ type := "email", recipient := d.toAddr, subject := d.subject,
                         status := "failed", messageId := none, errorMessage := some msg,
                         emailType := d.type }]) := by
        simp [runJobAux, sendEmailAttempt, ho]
      rw [hstep]
      obtain ⟨k1, k2, k3, k4⟩ := ih (made + 1)
        (log ++ [{ type := "email", recipient := d.toAddr, subject := d.subject,
                   status := "failed", messageId := none, errorMessage := some msg,
                   emailType := d.type }])
      refine ⟨k1, by omega, ?_, ?_⟩
      · rw [k3]
        simp [List.filter_append]
        omega
      · rw [k4]
        simp [List.filter_append]

/-- C1 (amended): an email job whose configured attempts (default 3 from
`queueEmail`) are exhausted by repeated transport failure reaches the
failed terminal state with no further retries (attempts made = configured
attempts), and one `failed` log entry is written per failed attempt — so
`attempts` entries in total, not exactly one — and no `sent` entry. -/
theorem c1_email_retry_exhaustion (d : EmailPayload) (attempts : Nat)
    (outcomes : Nat → SendOutcome) (hfail : ∀ i, (outcomes i).isFailure = true) :
    (runEmailJob d attempts outcomes).1 = JobState.failed
    ∧ (runEmailJob d attempts outcomes).2.1 = attempts
    ∧ ((runEmailJob d attempts outcomes).2.2.filter
          (fun e => e.status == "failed")).length = attempts
    ∧ ((runEmailJob d attempts outcomes).2.2.filter
          (fun e => e.status == "sent")).length = 0
    ∧ (queueEmail d none none).2.attempts = 3 := by
  obtain ⟨h1, h2, h3, h4⟩ := runJobAux_all_failures d outcomes hfail attempts 0 []
  exact ⟨h1, by simpa [runEmailJob] using h2, by simpa [runEmailJob] using h3,
    by simpa [runEmailJob] using h4, rfl⟩

/-- C1 witness: a concrete job with 3 attempts and an always-failing
transport. -/
theorem c1_witness :
    (runEmailJob sampleEmail 3 failAlways).1 = JobState.failed
    ∧ (runEmailJob sampleEmail 3 failAlways).2.1 = 3
    ∧ ((runEmailJob sampleEmail 3 failAlways).2.2.filter
          (fun e => e.status == "failed")).length = 3
    ∧ ((runEmailJob sampleEmail 3 failAlways).2.2.filter
          (fun e => e.status == "sent")).length = 0
    ∧ (queueEmail sampleEmail none none).2.attempts = 3 :=
  c1_email_retry_exhaustion sampleEmail 3 failAlways (fun _ => rfl)

/-- C1 counterexample: on a concrete job exhausting its 3 attempts by
repeated transport failure, the notification log holds three `failed`
entries — not exactly one as the claim states (the processor logs a
`failed` entry in its catch block on every failing attempt). -/
theorem c1_counterexample :
    (runEmailJob sampleEmail 3 failAlways).1 = JobState.failed
    ∧ (runEmailJob sampleEmail 3 failAlways).2.1 = 3
    ∧ ((runEmailJob sampleEmail 3 failAlways).2.2.filter
          (fun e => e.status == "failed")).length = 3
    ∧ ((runEmailJob sampleEmail 3 failAlways).2.2.filter
          (fun e => e.status == "failed")).length ≠ 1 := by
  refine ⟨by decide, by decide, by decide, by decide⟩

/-- Taking `n ≤ m` elements of `l ++ t.take m` ignores the inner
truncation. -/
theorem take_append_take_of_le {α : Type} :
    ∀ (l t : List α) (n m : Nat), n ≤ m →
      (l ++ t.take m).take n = (l ++ t).take n := by
  intro l
  induction l with
  | nil =>
    intro t n m h
    simp [List.take_take, Nat.min_eq_left h]
  | cons a l ih =>
    intro t n m h
    cases n with
    | zero => rfl
    | succ n =>
      simp only [List.cons_append, List.take_succ_cons]
      rw [ih t n m (Nat.le_of_succ_le h)]

/-- Folding `logNotification` over a chronological sequence of entries
leaves the store holding the 100 most recent entries, most recent first. -/
theorem foldl_logNotification (es : List NotifLogEntry) :
    ∀ (s : List NotifLogEntry), s.length ≤ 100 →
      es.foldl (fun acc e => logNotification e acc) s = (es.reverse ++ s).take 100 := by
  induction es with
  | nil =>
    intro s hs
    simpa using (List.take_of_length_le hs).symm
  | cons e es ih =>
    intro s hs
    simp only [List.foldl_cons, List.reverse_cons]
    rw [ih (logNotification e s) (by simp [logNotification])]
    rw [List.append_assoc]
    show (es.reverse ++ (e :: s).take 100).take 100 = (es.reverse ++ ([e] ++ s)).take 100
    exact take_append_take_of_le es.reverse (e :: s) 100 100 (Nat.le_refl 100)

/-- C7: a log entry written via `logNotification` is retrievable via
`getRecentNotifications n` for any `n ≥ 1` as the most recent entry; the
retained store is bounded by 100 entries with the oldest evicted; and after
any chronological sequence of writes, `getRecentNotifications n` returns
the retained entries in reverse-chronological order (most recently written
first). -/
theorem c7_log_roundtrip :
    (∀ (entry : NotifLogEntry) (recent : List NotifLogEntry) (n : Nat), 1 ≤ n →
        (getRecentNotifications n (logNotification entry recent)).head? = some entry)
    ∧ (∀ (entry : NotifLogEntry) (recent : List NotifLogEntry),
        (logNotification entry recent).length ≤ 100)
    ∧ (∀ (entry : NotifLogEntry) (recent : List NotifLogEntry), recent.length = 100 →
        logNotification entry recent = entry :: recent.take 99)
    ∧ (∀ (es : List NotifLogEntry) (n : Nat), 1 ≤ n →
        getRecentNotifications n (es.foldl (fun acc e => logNotification e acc) [])
          = (es.reverse.take 100).take n) := by
  refine ⟨?_, ?_, ?_, ?_⟩
  · intro entry recent n hn
    unfold getRecentNotifications logNotification
    rw [if_neg (by omega)]
    obtain ⟨m, rfl⟩ : ∃ m, n = m + 1 := ⟨n - 1, by omega⟩
    simp
  · intro entry recent
    unfold logNotification
    simp
  · intro entry recent h
    unfold logNotification
    have h100 : (100 : Nat) = 99 + 1 := rfl
    rw [h100, List.take_succ_cons]
  · intro es n hn
    rw [foldl_logNotification es [] (by simp)]
    unfold getRecentNotifications
    rw [if_neg (by omega)]
    simp

/-- C7 witness: concrete round trips — the freshly written entry is the
head; a full store of 100 entries evicts the oldest; two writes read back
most-recent-first. -/
theorem c7_witness :
    (getRecentNotifications 1 (logNotification sampleLogEntry [])).head?
        = some sampleLogEntry
    ∧ logNotification sampleLogEntry (List.replicate 100 sampleLogEntry2)
        = sampleLogEntry :: (List.replicate 100 sampleLogEntry2).take 99
    ∧ getRecentNotifications 2
        ([sampleLogEntry, sampleLogEntry2].foldl (fun acc e => logNotification e acc) [])
        = (([sampleLogEntry, sampleLogEntry2].reverse).take 100).take 2 :=
  ⟨c7_log_roundtrip.1 sampleLogEntry [] 1 (Nat.le_refl 1),
   c7_log_roundtrip.2.2.1 sampleLogEntry (List.replicate 100 sampleLogEntry2) (by simp),
   c7_log_roundtrip.2.2.2 [sampleLogEntry, sampleLogEntry2] 2 (by omega)⟩

end CourseMgmt
